import Mathlib

/-!
Verification development for the postpartum triage engine and case store.

The definitions below are a shallow embedding of the TypeScript sources:
  * the decision engine (`evaluatePostpartumTriage` and its helpers),
  * the SQLite-backed case record store (`PostpartumStore`), and
  * the web handler validation layer (`normalizeOutcomePatch` etc.).

JavaScript numbers are embedded as rationals, optional fields as `Option`,
and JS truthiness of optional booleans as `Option.getD false`.
-/

namespace Postpartum

/-- Triage level of the postpartum engine (`PostpartumTriageLevel` in types.ts). -/
inductive TriageLevel
  | EMERGENCY_NOW
  | URGENT_SAME_DAY
  | ROUTINE_FOLLOW_UP
deriving DecidableEq, Repr

/-- Confidence bucket (`ConfidenceBucket` in types.ts). -/
inductive ConfidenceBucket
  | HIGH
  | MEDIUM
  | LOW
deriving DecidableEq, Repr

/-- Inconsistency level (`InconsistencyLevel` in types.ts). -/
inductive InconsistencyLevel
  | NONE
  | MINOR
  | MAJOR
deriving DecidableEq, Repr

/-- Primary route of an action plan (types.ts `PostpartumActionPlan.primaryRoute`). -/
inductive PrimaryRoute
  | CALL_EMERGENCY_112
  | SAME_DAY_MENTAL_HEALTH_ASSESSMENT
  | SAME_DAY_OBGYN_OR_HAUSARZT
  | SAME_DAY_MIXED_MENTAL_AND_OBGYN
  | ROUTINE_POSTPARTUM_FOLLOWUP
deriving DecidableEq, Repr

/-- Timeframe of an action plan (types.ts). -/
inductive Timeframe
  | NOW
  | TODAY
  | WITHIN_7_DAYS
deriving DecidableEq, Repr

/-- Dominance signal computed by `inferUrgentDomain` in the evaluator. -/
inductive Domain
  | mental
  | pelvic
  | mixed
deriving DecidableEq, Repr

/-- The triage questionnaire (`PostpartumInput` in types.ts).  Every field is
optional in the source; `none` is an absent field, which matters for
confidence scoring. -/
structure Input where
  weeksPostpartum : Option ℚ := none
  suicidalIdeationNow : Option Bool := none
  suicidalIntentOrPlan : Option Bool := none
  thoughtsOfHarmingBaby : Option Bool := none
  psychosisWarningSigns : Option Bool := none
  heavyBleedingEmergencyPattern : Option Bool := none
  highFeverAndSeverePain : Option Bool := none
  syncopeOrCollapse : Option Bool := none
  chestPainOrSevereBreathlessness : Option Bool := none
  depressedMoodMostDays : Option Bool := none
  anxietyOrPanicMostDays : Option Bool := none
  sleepSeverelyDisruptedNotByBaby : Option Bool := none
  bondingDifficulty : Option Bool := none
  anhedonia : Option Bool := none
  functionalImpairmentMental : Option Bool := none
  urinaryIncontinenceFrequent : Option Bool := none
  fecalIncontinenceAny : Option Bool := none
  urinaryRetention : Option Bool := none
  severePerinealPainPersistent : Option Bool := none
  perinealWoundConcerns : Option Bool := none
  prolapseBulgeSymptoms : Option Bool := none
  dyspareuniaPersistentSevere : Option Bool := none
  functionalImpairmentPelvic : Option Bool := none
  priorDepressionOrAnxiety : Option Bool := none
  priorPostpartumDepression : Option Bool := none
  birthTraumaOrEmergencyDelivery : Option Bool := none
  oasisHistory : Option Bool := none
  poorSocialSupport : Option Bool := none
  cannotAnswerCriticalQuestions : Option Bool := none
  userUncertainOnSafetyQuestions : Option Bool := none
  inconsistencyLevel : Option InconsistencyLevel := none
deriving DecidableEq, Repr

/-- JS truthiness of an optional boolean field: `Boolean(undefined) = false`. -/
def truthy (o : Option Bool) : Bool :=
  o.getD false

/-- Weights of the mental-health scoring table (`PostpartumRules.scoring.mentalHealth`). -/
structure MentalHealthWeights where
  depressedMoodMostDays : ℚ
  anxietyOrPanicMostDays : ℚ
  sleepSeverelyDisruptedNotByBaby : ℚ
  bondingDifficulty : ℚ
  anhedonia : ℚ
  functionalImpairmentMental : ℚ
  lateOnsetAfter6Weeks : ℚ
deriving DecidableEq, Repr

/-- Weights of the pelvic-floor scoring table (`scoring.pelvicFloorAndRecovery`). -/
structure PelvicFloorWeights where
  urinaryIncontinenceFrequent : ℚ
  fecalIncontinenceAny : ℚ
  urinaryRetention : ℚ
  severePerinealPainPersistent : ℚ
  perinealWoundConcerns : ℚ
  prolapseBulgeSymptoms : ℚ
  dyspareuniaPersistentSevere : ℚ
  functionalImpairmentPelvic : ℚ
deriving DecidableEq, Repr

/-- Weights of the history/context scoring table (`scoring.historyAndContext`). -/
structure HistoryContextWeights where
  priorDepressionOrAnxiety : ℚ
  priorPostpartumDepression : ℚ
  birthTraumaOrEmergencyDelivery : ℚ
  oasisHistory : ℚ
  poorSocialSupport : ℚ
deriving DecidableEq, Repr

/-- One red-flag rule definition (`PostpartumRules.redFlagRules` entry). -/
structure RedFlagRule where
  id : String
  label : String
  description : String
deriving DecidableEq, Repr

/-- Scoring tables (`PostpartumRules.scoring`). -/
structure Scoring where
  mentalHealth : MentalHealthWeights
  pelvicFloorAndRecovery : PelvicFloorWeights
  historyAndContext : HistoryContextWeights
deriving DecidableEq, Repr

/-- Rule-set metadata (`PostpartumRules.metadata`). -/
structure Metadata where
  emergencyNumber : String
deriving DecidableEq, Repr

/-- Rule-set thresholds (`PostpartumRules.thresholds`). -/
structure Thresholds where
  urgentSameDayMin : ℚ
deriving DecidableEq, Repr

/-- Confidence policy (`PostpartumRules.confidencePolicy`). -/
structure ConfidencePolicy where
  criticalInputs : List String
deriving DecidableEq, Repr

/-- The versioned rule set (`PostpartumRules` in types.ts). -/
structure Rules where
  version : String
  metadata : Metadata
  redFlagRules : List RedFlagRule
  scoring : Scoring
  thresholds : Thresholds
  confidencePolicy : ConfidencePolicy
deriving DecidableEq, Repr

/-- One fully-enumerated red-flag trace entry (`PostpartumRedFlagTrace`). -/
structure RedFlagTrace where
  id : String
  label : String
  fired : Bool
deriving DecidableEq, Repr

/-- Score breakdown (`PostpartumScoreBreakdown`). -/
structure ScoreBreakdown where
  mentalHealth : ℚ
  pelvicFloorAndRecovery : ℚ
  historyAndContext : ℚ
  total : ℚ
deriving DecidableEq, Repr

/-- Confidence trace (`PostpartumConfidenceTrace`).  The per-key status map of
the source is a JS object keyed by strings; it is embedded as an association
list over the distinct keys in insertion order. -/
structure ConfidenceTrace where
  bucket : ConfidenceBucket
  missingCriticalInputs : ℕ
  criticalInputsStatus : List (String × Bool)
  inconsistencyLevel : InconsistencyLevel
  userUncertainOnSafetyQuestions : Bool
deriving DecidableEq, Repr

/-- Uncertainty trace (`PostpartumUncertaintyTrace`). -/
structure UncertaintyTrace where
  triggered : Bool
  reasons : List String
  escalatedFrom : Option TriageLevel := none
  escalatedTo : Option TriageLevel := none
deriving DecidableEq, Repr

/-- Action plan (`PostpartumActionPlan`). -/
structure ActionPlan where
  level : TriageLevel
  title : String
  summary : String
  primaryRoute : PrimaryRoute
  timeframe : Timeframe
  recommendedContacts : List String
  instructions : List String
  safetyNet : List String
deriving DecidableEq, Repr

/-- The evaluator result (`PostpartumResult` in types.ts). -/
structure Result where
  level : TriageLevel
  isEmergency : Bool
  emergencyNumber : String
  rulesVersion : String
  rationale : List String
  redFlags : List RedFlagTrace
  scoreBreakdown : ScoreBreakdown
  confidence : ConfidenceTrace
  uncertainty : UncertaintyTrace
  actionPlan : ActionPlan
deriving DecidableEq, Repr

/-- Copy text for one route (`routeCopy` entries of the English copy pack). -/
structure RouteCopy where
  title : String
  summary : String
  recommendedContacts : List String
  instructions : List String
deriving Repr

/-- Copy pack shape consumed by `buildActionPlan`. -/
structure CopyPack where
  routeCopy : PrimaryRoute → RouteCopy
  commonSafetyNet : List String

/-- The English copy pack (`buildPostpartumEnglishCopyPack` in
src/postpartum/copy/en): a fixed route-copy table parameterized by the
emergency number, with the `Record<Route, RouteCopy>` object embedded as a
function on routes.  Template literals are embedded as string concatenation. -/
def buildPostpartumEnglishCopyPack (emergencyNumber : String) : CopyPack :=
  { commonSafetyNet :=
      ["Call " ++ emergencyNumber
        ++ " immediately if suicidal thoughts with intent, thoughts of harming the baby,"
        ++ " psychosis signs, heavy bleeding, collapse, or severe breathing/chest symptoms"
        ++ " occur.",
       "Do not wait for a scheduled appointment if symptoms rapidly worsen."]
    routeCopy := fun route =>
      match route with
      | .CALL_EMERGENCY_112 =>
          { title := "Emergency care needed now"
            summary := "Your answers indicate a high-risk postpartum emergency. Call "
              ++ emergencyNumber ++ " now."
            recommendedContacts := [emergencyNumber, "nearest emergency department"]
            instructions :=
              ["Call " ++ emergencyNumber ++ " now.",
               "Stay with a trusted adult if possible until emergency care is reached.",
               "If safe, bring medication list and postpartum timeline."] }
      | .SAME_DAY_MENTAL_HEALTH_ASSESSMENT =>
          { title := "Same-day mental health assessment"
            summary := "Your answers suggest urgent postpartum mental health risk that needs"
              ++ " same-day clinical assessment."
            recommendedContacts :=
              ["same-day psychiatric assessment service",
               "Hausarzt (same day)",
               "midwife/Hebamme for immediate escalation support"]
            instructions :=
              ["Arrange a same-day mental health assessment.",
               "If same-day psychiatry is unavailable, seek same-day Hausarzt/OB-GYN review.",
               "Do not remain alone if safety feels uncertain."] }
      | .SAME_DAY_OBGYN_OR_HAUSARZT =>
          { title := "Same-day postpartum physical assessment"
            summary := "Your answers suggest urgent postpartum recovery or pelvic-floor"
              ++ " symptoms requiring same-day review."
            recommendedContacts :=
              ["OB-GYN (same day)",
               "Hausarzt (same day)",
               "postpartum hospital clinic/ambulatory gyn service"]
            instructions :=
              ["Arrange same-day OB-GYN or Hausarzt assessment.",
               "Bring details of delivery type, tear history, and symptom timeline.",
               "Request pelvic floor and wound-focused evaluation if relevant."] }
      | .SAME_DAY_MIXED_MENTAL_AND_OBGYN =>
          { title := "Same-day combined postpartum assessment"
            summary := "Your answers suggest urgent concerns across both mental and physical"
              ++ " postpartum recovery."
            recommendedContacts :=
              ["same-day Hausarzt or OB-GYN",
               "same-day mental health assessment service",
               "midwife/Hebamme for routing support"]
            instructions :=
              ["Arrange same-day assessment covering both mental health and physical"
                ++ " postpartum recovery.",
               "Prioritize whichever appointment is available first today.",
               "If safety risk increases, escalate to emergency immediately."] }
      | .ROUTINE_POSTPARTUM_FOLLOWUP =>
          { title := "Routine postpartum follow-up"
            summary := "Current responses do not indicate emergency-level risk, but follow-up"
              ++ " is still recommended."
            recommendedContacts :=
              ["scheduled OB-GYN follow-up",
               "Hausarzt follow-up",
               "midwife/Hebamme check-in if available"]
            instructions :=
              ["Book a routine follow-up within 7 days.",
               "Track symptom frequency and functional impact daily.",
               "Re-run triage immediately if symptoms worsen or new red flags appear."] } }

/-- Fired-predicate map of `evaluateRedFlags` (`firedMap` in the evaluator):
JS `Boolean(a && b)` on optional booleans is conjunction of truthiness, and an
id that is not a key of the map yields `Boolean(undefined) = false`. -/
def firedMap (input : Input) : String → Bool
  | "PP_RF001" => truthy input.suicidalIdeationNow && truthy input.suicidalIntentOrPlan
  | "PP_RF002" => truthy input.thoughtsOfHarmingBaby
  | "PP_RF003" => truthy input.psychosisWarningSigns
  | "PP_RF004" => truthy input.heavyBleedingEmergencyPattern
  | "PP_RF005" => truthy input.highFeverAndSeverePain
  | "PP_RF006" => truthy input.syncopeOrCollapse || truthy input.chestPainOrSevereBreathlessness
  | _ => false

/-- Red-flag evaluation (`evaluateRedFlags` in the evaluator): one fully
enumerated trace entry per rule of the rule set. -/
def evaluateRedFlags (input : Input) (rules : Rules) : List RedFlagTrace :=
  rules.redFlagRules.map fun rule =>
    { id := rule.id, label := rule.label, fired := firedMap input rule.id }

/-- Late-onset test (`isLateOnset`): `weeksPostpartum` is a number and greater
than 6. -/
def isLateOnset (input : Input) : Bool :=
  match input.weeksPostpartum with
  | some w => decide (6 < w)
  | none => false

/-- Weighted scoring (`calculateScore`).  The source accumulates each domain
with a sequence of conditional additions; they are folded here into one sum of
if-terms per domain, in source order. -/
def calculateScore (input : Input) (rules : Rules) : ScoreBreakdown :=
  let w := rules.scoring
  let mentalHealth : ℚ :=
    (if truthy input.depressedMoodMostDays then w.mentalHealth.depressedMoodMostDays else 0)
    + (if truthy input.anxietyOrPanicMostDays then w.mentalHealth.anxietyOrPanicMostDays else 0)
    + (if truthy input.sleepSeverelyDisruptedNotByBaby then
        w.mentalHealth.sleepSeverelyDisruptedNotByBaby else 0)
    + (if truthy input.bondingDifficulty then w.mentalHealth.bondingDifficulty else 0)
    + (if truthy input.anhedonia then w.mentalHealth.anhedonia else 0)
    + (if truthy input.functionalImpairmentMental then
        w.mentalHealth.functionalImpairmentMental else 0)
    + (if isLateOnset input
          && (truthy input.depressedMoodMostDays || truthy input.anxietyOrPanicMostDays
              || truthy input.anhedonia) then
        w.mentalHealth.lateOnsetAfter6Weeks else 0)
  let pelvicFloorAndRecovery : ℚ :=
    (if truthy input.urinaryIncontinenceFrequent then
        w.pelvicFloorAndRecovery.urinaryIncontinenceFrequent else 0)
    + (if truthy input.fecalIncontinenceAny then
        w.pelvicFloorAndRecovery.fecalIncontinenceAny else 0)
    + (if truthy input.urinaryRetention then
        w.pelvicFloorAndRecovery.urinaryRetention else 0)
    + (if truthy input.severePerinealPainPersistent then
        w.pelvicFloorAndRecovery.severePerinealPainPersistent else 0)
    + (if truthy input.perinealWoundConcerns then
        w.pelvicFloorAndRecovery.perinealWoundConcerns else 0)
    + (if truthy input.prolapseBulgeSymptoms then
        w.pelvicFloorAndRecovery.prolapseBulgeSymptoms else 0)
    + (if truthy input.dyspareuniaPersistentSevere then
        w.pelvicFloorAndRecovery.dyspareuniaPersistentSevere else 0)
    + (if truthy input.functionalImpairmentPelvic then
        w.pelvicFloorAndRecovery.functionalImpairmentPelvic else 0)
  let historyAndContext : ℚ :=
    (if truthy input.priorDepressionOrAnxiety then
        w.historyAndContext.priorDepressionOrAnxiety else 0)
    + (if truthy input.priorPostpartumDepression then
        w.historyAndContext.priorPostpartumDepression else 0)
    + (if truthy input.birthTraumaOrEmergencyDelivery then
        w.historyAndContext.birthTraumaOrEmergencyDelivery else 0)
    + (if truthy input.oasisHistory then w.historyAndContext.oasisHistory else 0)
    + (if truthy input.poorSocialSupport then w.historyAndContext.poorSocialSupport else 0)
  { mentalHealth := mentalHealth
    pelvicFloorAndRecovery := pelvicFloorAndRecovery
    historyAndContext := historyAndContext
    total := mentalHealth + pelvicFloorAndRecovery + historyAndContext }

/-- Presence of a named field of the input record: the source reads
`(input as Record<string, unknown>)[key] !== undefined`; an unknown key is an
absent property, hence not present. -/
def fieldPresent (input : Input) : String → Bool
  | "weeksPostpartum" => input.weeksPostpartum.isSome
  | "suicidalIdeationNow" => input.suicidalIdeationNow.isSome
  | "suicidalIntentOrPlan" => input.suicidalIntentOrPlan.isSome
  | "thoughtsOfHarmingBaby" => input.thoughtsOfHarmingBaby.isSome
  | "psychosisWarningSigns" => input.psychosisWarningSigns.isSome
  | "heavyBleedingEmergencyPattern" => input.heavyBleedingEmergencyPattern.isSome
  | "highFeverAndSeverePain" => input.highFeverAndSeverePain.isSome
  | "syncopeOrCollapse" => input.syncopeOrCollapse.isSome
  | "chestPainOrSevereBreathlessness" => input.chestPainOrSevereBreathlessness.isSome
  | "depressedMoodMostDays" => input.depressedMoodMostDays.isSome
  | "anxietyOrPanicMostDays" => input.anxietyOrPanicMostDays.isSome
  | "sleepSeverelyDisruptedNotByBaby" => input.sleepSeverelyDisruptedNotByBaby.isSome
  | "bondingDifficulty" => input.bondingDifficulty.isSome
  | "anhedonia" => input.anhedonia.isSome
  | "functionalImpairmentMental" => input.functionalImpairmentMental.isSome
  | "urinaryIncontinenceFrequent" => input.urinaryIncontinenceFrequent.isSome
  | "fecalIncontinenceAny" => input.fecalIncontinenceAny.isSome
  | "urinaryRetention" => input.urinaryRetention.isSome
  | "severePerinealPainPersistent" => input.severePerinealPainPersistent.isSome
  | "perinealWoundConcerns" => input.perinealWoundConcerns.isSome
  | "prolapseBulgeSymptoms" => input.prolapseBulgeSymptoms.isSome
  | "dyspareuniaPersistentSevere" => input.dyspareuniaPersistentSevere.isSome
  | "functionalImpairmentPelvic" => input.functionalImpairmentPelvic.isSome
  | "priorDepressionOrAnxiety" => input.priorDepressionOrAnxiety.isSome
  | "priorPostpartumDepression" => input.priorPostpartumDepression.isSome
  | "birthTraumaOrEmergencyDelivery" => input.birthTraumaOrEmergencyDelivery.isSome
  | "oasisHistory" => input.oasisHistory.isSome
  | "poorSocialSupport" => input.poorSocialSupport.isSome
  | "cannotAnswerCriticalQuestions" => input.cannotAnswerCriticalQuestions.isSome
  | "userUncertainOnSafetyQuestions" => input.userUncertainOnSafetyQuestions.isSome
  | "inconsistencyLevel" => input.inconsistencyLevel.isSome
  | _ => false

/-- Critical-input presence (`isCriticalInputPresent`): the aggregate key
`functionalImpairmentOverall` is satisfied by either underlying impairment
field; any other key is a plain field lookup. -/
def isCriticalInputPresent (key : String) (input : Input) : Bool :=
  if key = "functionalImpairmentOverall" then
    input.functionalImpairmentMental.isSome || input.functionalImpairmentPelvic.isSome
  else
    fieldPresent input key

/-- Confidence computation (`buildConfidenceTrace`).  The source fills a JS
object with one entry per critical-input key, so duplicate keys collapse;
`List.eraseDups` keeps the first occurrence of each key, matching JS object
insertion order. -/
def buildConfidenceTrace (input : Input) (rules : Rules) : ConfidenceTrace :=
  let criticalInputsStatus : List (String × Bool) :=
    (rules.confidencePolicy.criticalInputs.eraseDups).map fun key =>
      (key, isCriticalInputPresent key input)
  let missingCriticalInputs : ℕ := criticalInputsStatus.countP fun kv => !kv.2
  let inconsistencyLevel := input.inconsistencyLevel.getD .NONE
  let userUncertainOnSafetyQuestions := truthy input.userUncertainOnSafetyQuestions
  let bucket : ConfidenceBucket :=
    if 2 ≤ missingCriticalInputs ∨ inconsistencyLevel = .MAJOR
        ∨ userUncertainOnSafetyQuestions = true then
      .LOW
    else if missingCriticalInputs = 1 ∨ inconsistencyLevel = .MINOR then
      .MEDIUM
    else
      .HIGH
  { bucket := bucket
    missingCriticalInputs := missingCriticalInputs
    criticalInputsStatus := criticalInputsStatus
    inconsistencyLevel := inconsistencyLevel
    userUncertainOnSafetyQuestions := userUncertainOnSafetyQuestions }

/-- Uncertainty computation (`evaluateUncertainty`): reason codes collected in
source order; triggered exactly when at least one reason applies.  The rules
argument is unused in the source as well. -/
def evaluateUncertainty (input : Input) (confidence : ConfidenceTrace) (_rules : Rules) :
    UncertaintyTrace :=
  let reasons : List String :=
    (if truthy input.cannotAnswerCriticalQuestions then ["cannotAnswerCriticalQuestions"] else [])
    ++ (if 2 < confidence.missingCriticalInputs then ["missingMoreThanTwoCriticalInputs"] else [])
    ++ (if confidence.inconsistencyLevel = .MAJOR then ["majorInconsistency"] else [])
    ++ (if truthy input.userUncertainOnSafetyQuestions then ["userUncertainOnSafetyQuestions"] else [])
    ++ (if confidence.bucket = .LOW then ["lowConfidence"] else [])
  { triggered := decide (0 < reasons.length), reasons := reasons }

/-- One-tier escalation (`escalateOneLevel`). -/
def escalateOneLevel : TriageLevel → TriageLevel
  | .ROUTINE_FOLLOW_UP => .URGENT_SAME_DAY
  | .URGENT_SAME_DAY => .EMERGENCY_NOW
  | .EMERGENCY_NOW => .EMERGENCY_NOW

/-- Dominance signal (`inferUrgentDomain`): a domain dominates when it leads
the other by at least 2 points; otherwise mixed. -/
def inferUrgentDomain (score : ScoreBreakdown) : Domain :=
  if score.pelvicFloorAndRecovery + 2 ≤ score.mentalHealth then .mental
  else if score.mentalHealth + 2 ≤ score.pelvicFloorAndRecovery then .pelvic
  else .mixed

/-- Action-plan selection (`buildActionPlan`): level and dominance map to a
fixed route and timeframe, collapsing to the single emergency template when
the level is EMERGENCY_NOW. -/
def buildActionPlan (level : TriageLevel) (emergencyNumber : String) (domain : Domain) :
    ActionPlan :=
  let copy := buildPostpartumEnglishCopyPack emergencyNumber
  match level with
  | .EMERGENCY_NOW =>
      let route := PrimaryRoute.CALL_EMERGENCY_112
      { level := level
        title := (copy.routeCopy route).title
        summary := (copy.routeCopy route).summary
        primaryRoute := route
        timeframe := .NOW
        recommendedContacts := (copy.routeCopy route).recommendedContacts
        instructions := (copy.routeCopy route).instructions
        safetyNet := copy.commonSafetyNet }
  | .URGENT_SAME_DAY =>
      let route :=
        match domain with
        | .mental => PrimaryRoute.SAME_DAY_MENTAL_HEALTH_ASSESSMENT
        | .pelvic => PrimaryRoute.SAME_DAY_OBGYN_OR_HAUSARZT
        | .mixed => PrimaryRoute.SAME_DAY_MIXED_MENTAL_AND_OBGYN
      { level := level
        title := (copy.routeCopy route).title
        summary := (copy.routeCopy route).summary
        primaryRoute := route
        timeframe := .TODAY
        recommendedContacts := (copy.routeCopy route).recommendedContacts
        instructions := (copy.routeCopy route).instructions
        safetyNet := copy.commonSafetyNet }
  | .ROUTINE_FOLLOW_UP =>
      let route := PrimaryRoute.ROUTINE_POSTPARTUM_FOLLOWUP
      { level := level
        title := (copy.routeCopy route).title
        summary := (copy.routeCopy route).summary
        primaryRoute := route
        timeframe := .WITHIN_7_DAYS
        recommendedContacts := (copy.routeCopy route).recommendedContacts
        instructions := (copy.routeCopy route).instructions
        safetyNet := copy.commonSafetyNet }

/-- Base level of the non-emergency path (the `baseLevel` binding in
`evaluatePostpartumTriage`): URGENT_SAME_DAY when the score total reaches the
inclusive threshold, otherwise ROUTINE_FOLLOW_UP. -/
def baseLevelOf (input : Input) (rules : Rules) : TriageLevel :=
  if rules.thresholds.urgentSameDayMin ≤ (calculateScore input rules).total then
    .URGENT_SAME_DAY
  else
    .ROUTINE_FOLLOW_UP

/-- Emergency branch of `evaluatePostpartumTriage` (taken when at least one
red flag fired). -/
def emergencyResult (input : Input) (rules : Rules) : Result :=
  let redFlags := evaluateRedFlags input rules
  let fired := redFlags.filter fun flag => flag.fired
  let confidence := buildConfidenceTrace input rules
  { level := .EMERGENCY_NOW
    isEmergency := true
    emergencyNumber := rules.metadata.emergencyNumber
    rulesVersion := rules.version
    rationale :=
      "At least one postpartum emergency red flag was triggered."
        :: fired.map fun flag => "Triggered: " ++ flag.label
    redFlags := redFlags
    scoreBreakdown :=
      { mentalHealth := 0, pelvicFloorAndRecovery := 0, historyAndContext := 0, total := 0 }
    confidence := confidence
    uncertainty := { triggered := false, reasons := [] }
    actionPlan := buildActionPlan .EMERGENCY_NOW rules.metadata.emergencyNumber .mixed }

/-- Non-emergency branch of `evaluatePostpartumTriage` (no red flag fired).
Numeric formatting inside rationale strings uses the Lean print of rationals
where the source prints JS numbers; no claim depends on rationale text. -/
def nonEmergencyResult (input : Input) (rules : Rules) : Result :=
  let redFlags := evaluateRedFlags input rules
  let confidence := buildConfidenceTrace input rules
  let scoreBreakdown := calculateScore input rules
  let baseLevel := baseLevelOf input rules
  let uncertainty := evaluateUncertainty input confidence rules
  let finalLevel := if uncertainty.triggered then escalateOneLevel baseLevel else baseLevel
  let rationale :=
    ["No postpartum emergency red flag triggered under rules " ++ rules.version ++ ".",
     "Risk score total: " ++ toString scoreBreakdown.total ++ ".",
     "Base triage level: " ++ levelName baseLevel ++ ".",
     "Confidence: " ++ bucketName confidence.bucket ++ "."]
    ++ (if uncertainty.triggered ∧ finalLevel ≠ baseLevel then
          ["Escalated to " ++ levelName finalLevel ++ " due to uncertainty conditions: "
            ++ joinComma uncertainty.reasons ++ "."]
        else [])
  { level := finalLevel
    isEmergency := decide (finalLevel = .EMERGENCY_NOW)
    emergencyNumber := rules.metadata.emergencyNumber
    rulesVersion := rules.version
    rationale := rationale
    redFlags := redFlags
    scoreBreakdown := scoreBreakdown
    confidence := confidence
    uncertainty :=
      { uncertainty with
          escalatedFrom := if uncertainty.triggered then some baseLevel else none
          escalatedTo := if uncertainty.triggered then some finalLevel else none }
    actionPlan :=
      buildActionPlan finalLevel rules.metadata.emergencyNumber
        (inferUrgentDomain scoreBreakdown) }
where
  levelName : TriageLevel → String
    | .EMERGENCY_NOW => "EMERGENCY_NOW"
    | .URGENT_SAME_DAY => "URGENT_SAME_DAY"
    | .ROUTINE_FOLLOW_UP => "ROUTINE_FOLLOW_UP"
  bucketName : ConfidenceBucket → String
    | .HIGH => "HIGH"
    | .MEDIUM => "MEDIUM"
    | .LOW => "LOW"
  joinComma : List String → String
    | [] => ""
    | [s] => s
    | s :: rest => s ++ ", " ++ joinComma rest

/-- The decision engine (`evaluatePostpartumTriage`): red-flag short-circuit,
then weighted scoring with uncertainty escalation.  The source computes the
shared prefix once and branches on whether any flag fired; the two branches
are split into `emergencyResult` and `nonEmergencyResult`, both recomputing
the same pure prefix. -/
def evaluatePostpartumTriage (input : Input) (rules : Rules) : Result :=
  if 0 < ((evaluateRedFlags input rules).filter fun flag => flag.fired).length then
    emergencyResult input rules
  else
    nonEmergencyResult input rules

/-- Numeric rank of a triage level, for stating monotonicity of escalation:
ROUTINE_FOLLOW_UP below URGENT_SAME_DAY below EMERGENCY_NOW. -/
def urgencyRank : TriageLevel → ℕ
  | .ROUTINE_FOLLOW_UP => 0
  | .URGENT_SAME_DAY => 1
  | .EMERGENCY_NOW => 2

/-! ## Case record store (store.ts)

The SQLite tables of `PostpartumStore` are embedded as lists of rows; the
`event_json` column, which the store parses back into a structured audit
event on every read, is embedded directly as the structured event (the store
itself only ever writes well-formed serializations, so the parse-failure
branch of `updateEventWithChange` is unreachable in the model).  Fresh
`randomUUID` values and the wall clock are explicit arguments. -/

/-- Workflow status (`PostpartumCaseStatus` in audit.ts). -/
inductive CaseStatus
  | NEW
  | IN_PROGRESS
  | WAITING
  | CLOSED
deriving DecidableEq, Repr

/-- Outcome sub-record of a case (`PostpartumAuditOutcome`). -/
structure AuditOutcome where
  care_sought : Option Bool := none
  care_time : Option ℚ := none
  care_type : Option String := none
  resolved : Option Bool := none
  notes : Option String := none
  updated_at : String
  updated_by : Option String := none
deriving DecidableEq, Repr

/-- Workflow sub-record of a case (`PostpartumCaseWorkflow`). -/
structure CaseWorkflow where
  status : CaseStatus
  owner : Option String := none
  follow_up_due_at : Option String := none
  last_contact_at : Option String := none
  updated_at : String
  updated_by : Option String := none
deriving DecidableEq, Repr

/-- A persisted audit event (`PostpartumAuditEvent` in audit.ts, in the shape
the store reads and writes: `workflow` may be absent in legacy rows and is
filled by `normalizeEvent`). -/
structure AuditEvent where
  eventId : String
  timestamp : String
  source : String
  runId : String
  rulesVersion : String
  emergencyNumber : String
  finalLevel : TriageLevel
  baseLevel : TriageLevel
  isEmergency : Bool
  escalatedByUncertainty : Bool
  primaryRoute : PrimaryRoute
  timeframe : Timeframe
  scoreBreakdown : ScoreBreakdown
  confidenceBucket : ConfidenceBucket
  missingCriticalInputs : ℕ
  firedRedFlagIds : List String
  uncertaintyReasons : List String
  inputDigestSha256 : String
  inputSnapshot : Option Input := none
  outcome : Option AuditOutcome := none
  workflow : Option CaseWorkflow := none
  last_updated_by : Option String := none
  last_updated_at : Option String := none
deriving DecidableEq, Repr

/-- Row of the `postpartum_cases` table: primary-key `event_id`, the indexed
timestamps, and the parsed `event_json` payload. -/
structure CaseRow where
  event_id : String
  created_at : String
  updated_at : String
  event : AuditEvent
deriving DecidableEq, Repr

/-- Change type of a ledger entry. -/
inductive ChangeType
  | OUTCOME_UPDATE
  | WORKFLOW_UPDATE
deriving DecidableEq, Repr

/-- Outcome patch accepted by `updateOutcome`
(`Partial<Omit<PostpartumAuditOutcome, "updated_at" | "updated_by">>`).
The outer `Option` is key presence; the inner one is the tri-state value (a
present key may carry an explicit clear, which overwrites on spread). -/
structure OutcomePatch where
  care_sought : Option (Option Bool) := none
  care_time : Option (Option ℚ) := none
  care_type : Option (Option String) := none
  resolved : Option (Option Bool) := none
  notes : Option (Option String) := none
deriving DecidableEq, Repr

/-- Workflow patch accepted by `updateWorkflow`.  A present `status` key
always carries a concrete status (the web layer only emits parsed statuses);
the string fields are tri-state like the outcome patch. -/
structure WorkflowPatch where
  status : Option CaseStatus := none
  owner : Option (Option String) := none
  follow_up_due_at : Option (Option String) := none
  last_contact_at : Option (Option String) := none
deriving DecidableEq, Repr

/-- The raw requested fields recorded inside a change event. -/
inductive ChangePatch
  | outcome (patch : OutcomePatch)
  | workflow (patch : WorkflowPatch)
deriving DecidableEq, Repr

/-- Before/after snapshot pair of a committed patch
(`PostpartumAuditUpdateResult`). -/
structure UpdateResult where
  before : AuditEvent
  after : AuditEvent
deriving DecidableEq, Repr

/-- Snapshot of the mutable sub-records inside a change event. -/
structure ChangeSnapshot where
  outcome : Option AuditOutcome
  workflow : Option CaseWorkflow
deriving DecidableEq, Repr

/-- A change-ledger entry (`PostpartumAuditChangeEvent`). -/
structure ChangeEvent where
  changeId : String
  eventId : String
  timestamp : String
  editor : String
  changeType : ChangeType
  patch : ChangePatch
  before : ChangeSnapshot
  after : ChangeSnapshot
deriving DecidableEq, Repr

/-- The shared persistent state: the `postpartum_cases` table and the
append-only `postpartum_changes` table. -/
structure StoreState where
  cases : List CaseRow
  changes : List ChangeEvent
deriving DecidableEq, Repr

/-- Normalization applied on every read and before every write
(`normalizeEvent` in store.ts): back-fill `updated_by` on the sub-records and
default a missing workflow from the legacy `resolved` flag. -/
def normalizeEvent (event : AuditEvent) : AuditEvent :=
  let normalizedOutcome := event.outcome.map fun o =>
    { o with updated_by := some (o.updated_by.getD (event.last_updated_by.getD "system")) }
  match event.workflow with
  | some w =>
      { event with
          outcome := normalizedOutcome
          workflow := some
            { w with updated_by := some (w.updated_by.getD (event.last_updated_by.getD "system")) } }
  | none =>
      { event with
          outcome := normalizedOutcome
          workflow := some
            { status := if event.outcome.any (fun o => decide (o.resolved = some true)) then
                  .CLOSED
                else
                  .NEW
              owner := none
              follow_up_due_at := none
              last_contact_at := none
              updated_at := event.timestamp
              updated_by := some "system" } }

/-- Modelled from the spec: `createAuditChangeEvent` is imported from the
audit module by store.ts and server.ts but its definition is not among the
sources.  Per section 3 a ChangeEvent carries the unique changeId, the caseId,
a timestamp, the editor, the change type, the raw requested patch, and full
before/after sub-record snapshots taken from the committed update result.  The
generated changeId and timestamp are explicit arguments. -/
def createAuditChangeEvent (changeType : ChangeType) (editor : String) (patch : ChangePatch)
    (update : UpdateResult) (changeId timestamp : String) : ChangeEvent :=
  { changeId := changeId
    eventId := update.after.eventId
    timestamp := timestamp
    editor := editor
    changeType := changeType
    patch := patch
    before := { outcome := update.before.outcome, workflow := update.before.workflow }
    after := { outcome := update.after.outcome, workflow := update.after.workflow } }

/-- Shared transactional patch protocol (`updateEventWithChange` in store.ts):
read the row by id inside the transaction, abort with no effects when absent,
otherwise write the updated record back and append exactly one change event
before committing. -/
def updateEventWithChange (s : StoreState) (eventId : String) (changeType : ChangeType)
    (editor : String) (patch : ChangePatch) (apply : AuditEvent → String → AuditEvent)
    (now changeId : String) : Option UpdateResult × StoreState :=
  match s.cases.find? (fun row => row.event_id == eventId) with
  | none => (none, s)
  | some row =>
      let before := normalizeEvent row.event
      let after := apply before now
      let cases := s.cases.map fun r =>
        if r.event_id == eventId then
          { r with event := after, updated_at := after.last_updated_at.getD now }
        else
          r
      let update : UpdateResult := { before := before, after := after }
      let change := createAuditChangeEvent changeType editor patch update changeId now
      (some update, { cases := cases, changes := s.changes ++ [change] })

/-- Tri-state merge of an outcome patch over the current outcome
(`{...before.outcome, ...outcomePatch, updated_at: now, updated_by: editor}`):
a present patch key overwrites, even with an explicit clear; a spread of an
absent outcome contributes nothing. -/
def applyOutcomePatch (before : Option AuditOutcome) (patch : OutcomePatch)
    (editor now : String) : AuditOutcome :=
  { care_sought := patch.care_sought.getD (before.bind fun o => o.care_sought)
    care_time := patch.care_time.getD (before.bind fun o => o.care_time)
    care_type := patch.care_type.getD (before.bind fun o => o.care_type)
    resolved := patch.resolved.getD (before.bind fun o => o.resolved)
    notes := patch.notes.getD (before.bind fun o => o.notes)
    updated_at := now
    updated_by := some editor }

/-- Tri-state merge of a workflow patch over the current workflow
(`{...before.workflow, ...workflowPatch, updated_at: now, updated_by: editor}`). -/
def mergeWorkflow (w : CaseWorkflow) (patch : WorkflowPatch) (editor now : String) :
    CaseWorkflow :=
  { status := patch.status.getD w.status
    owner := patch.owner.getD w.owner
    follow_up_due_at := patch.follow_up_due_at.getD w.follow_up_due_at
    last_contact_at := patch.last_contact_at.getD w.last_contact_at
    updated_at := now
    updated_by := some editor }

/-- Outcome patch operation (`updateOutcome` in store.ts). -/
def updateOutcome (s : StoreState) (eventId : String) (outcomePatch : OutcomePatch)
    (editor now changeId : String) : Option UpdateResult × StoreState :=
  updateEventWithChange s eventId .OUTCOME_UPDATE editor (.outcome outcomePatch)
    (fun before t =>
      normalizeEvent
        { before with
            outcome := some (applyOutcomePatch before.outcome outcomePatch editor t)
            last_updated_by := some editor
            last_updated_at := some t })
    now changeId

/-- Workflow patch operation (`updateWorkflow` in store.ts).  The callback
runs on the output of `normalizeEvent`, whose workflow is always present; the
`none` branch is unreachable and mirrors the same legacy default. -/
def updateWorkflow (s : StoreState) (eventId : String) (workflowPatch : WorkflowPatch)
    (editor now changeId : String) : Option UpdateResult × StoreState :=
  updateEventWithChange s eventId .WORKFLOW_UPDATE editor (.workflow workflowPatch)
    (fun before t =>
      let merged :=
        match before.workflow with
        | some w => mergeWorkflow w workflowPatch editor t
        | none =>
            mergeWorkflow
              { status := .NEW, updated_at := before.timestamp, updated_by := some "system" }
              workflowPatch editor t
      normalizeEvent
        { before with
            workflow := some merged
            last_updated_by := some editor
            last_updated_at := some t })
    now changeId

/-- Case row built by the legacy import for one normalized event:
`(event_id, created_at, updated_at, event_json)` with
`updated_at = last_updated_at ?? timestamp`. -/
def caseRowOf (event : AuditEvent) : CaseRow :=
  { event_id := event.eventId
    created_at := event.timestamp
    updated_at := event.last_updated_at.getD event.timestamp
    event := event }

/-- INSERT OR IGNORE into the cases table, keyed by `event_id`. -/
def insertCaseOrIgnore (rows : List CaseRow) (row : CaseRow) : Bool × List CaseRow :=
  if rows.any fun r => r.event_id == row.event_id then
    (false, rows)
  else
    (true, rows ++ [row])

/-- INSERT OR IGNORE into the changes table, keyed by `change_id`. -/
def insertChangeOrIgnore (rows : List ChangeEvent) (row : ChangeEvent) :
    Bool × List ChangeEvent :=
  if rows.any fun r => r.changeId == row.changeId then
    (false, rows)
  else
    (true, rows ++ [row])

/-- Import loop over the history records: each normalized event is inserted
with conflict-ignore semantics and counted when the insert took effect. -/
def importCases (rows : List CaseRow) : List AuditEvent → ℕ × List CaseRow
  | [] => (0, rows)
  | event :: rest =>
      let step := insertCaseOrIgnore rows (caseRowOf event)
      let tail := importCases step.2 rest
      ((if step.1 then 1 else 0) + tail.1, tail.2)

/-- Import loop over the change records. -/
def importChanges (rows : List ChangeEvent) : List ChangeEvent → ℕ × List ChangeEvent
  | [] => (0, rows)
  | change :: rest =>
      let step := insertChangeOrIgnore rows change
      let tail := importChanges step.2 rest
      ((if step.1 then 1 else 0) + tail.1, tail.2)

/-- First block of `migrateFromJsonl`: the history file is read, normalized
and imported only when the cases table is empty (`hasCases` guard) and the
file exists (`none` is a missing file). -/
def importCasesIfEmpty (cases : List CaseRow) (historySource : Option (List AuditEvent)) :
    ℕ × List CaseRow :=
  if 0 < cases.length then
    (0, cases)
  else
    match historySource with
    | none => (0, cases)
    | some events => importCases cases (events.map normalizeEvent)

/-- Second block of `migrateFromJsonl`: the change file is imported only when
the changes table is empty and the file exists. -/
def importChangesIfEmpty (changes : List ChangeEvent)
    (changeSource : Option (List ChangeEvent)) : ℕ × List ChangeEvent :=
  if 0 < changes.length then
    (0, changes)
  else
    match changeSource with
    | none => (0, changes)
    | some changeEvents => importChanges changes changeEvents

/-- Legacy JSONL import (`migrateFromJsonl` in store.ts): each table is
imported only when it is currently empty and its source file exists; inserts
are conflict-ignored by primary key.  Returns
`(importedEvents, importedChanges)` and the updated state. -/
def migrateFromJsonl (s : StoreState) (historySource : Option (List AuditEvent))
    (changeSource : Option (List ChangeEvent)) : (ℕ × ℕ) × StoreState :=
  let casesStep := importCasesIfEmpty s.cases historySource
  let changesStep := importChangesIfEmpty s.changes changeSource
  ((casesStep.1, changesStep.1), { cases := casesStep.2, changes := changesStep.2 })

/-! ## Web validation layer (web/server.ts)

JSON field values are embedded as `JsonValue`; arrays and objects collapse to
one constructor because every field parser treats them identically (they are
neither null nor a primitive of the expected type).  `Number.parseFloat` is an
uninterpreted parameter: no proved property depends on its value, and JSON
numbers are always finite. -/

/-- A JSON value as seen by the outcome/workflow field parsers. -/
inductive JsonValue
  | null
  | bool (b : Bool)
  | num (value : ℚ)
  | str (s : String)
  | composite
deriving DecidableEq, Repr

/-- Parse result of one field (`{ok: true, value} | {ok: false, error}`);
`ok none` is an accepted key whose normalized value is undefined. -/
inductive FieldParse (α : Type)
  | ok (value : Option α)
  | err (msg : String)
deriving DecidableEq, Repr

/-- The `payload.outcome` record: only the five known keys are ever consulted
by `normalizeOutcomePatch`, so unknown keys are not represented. -/
structure OutcomeRaw where
  care_sought : Option JsonValue := none
  care_time : Option JsonValue := none
  care_type : Option JsonValue := none
  resolved : Option JsonValue := none
  notes : Option JsonValue := none
deriving DecidableEq, Repr

/-- Nullable boolean field parser (`parseNullableBooleanField`). -/
def parseNullableBooleanField (value : JsonValue) (field : String) : FieldParse Bool :=
  match value with
  | .null => .ok none
  | .bool b => .ok (some b)
  | _ => .err (field ++ " must be boolean or null.")

/-- Nullable number field parser (`parseNullableNumberField`): a finite
number must be non-negative; a string is trimmed, an empty one clears the
field and otherwise `Number.parseFloat` must yield a finite non-negative
value (`pf` returns `none` for NaN). -/
def parseNullableNumberField (pf : String → Option ℚ) (value : JsonValue) (field : String) :
    FieldParse ℚ :=
  match value with
  | .null => .ok none
  | .num q =>
      if 0 ≤ q then .ok (some q)
      else .err (field ++ " must be a non-negative number or null.")
  | .str s =>
      if s.trim.length = 0 then .ok none
      else
        match pf s with
        | some parsed =>
            if 0 ≤ parsed then .ok (some parsed)
            else .err (field ++ " must be a non-negative number or null.")
        | none => .err (field ++ " must be a non-negative number or null.")
  | _ => .err (field ++ " must be a non-negative number or null.")

/-- Care-type enum parser (`parseCareTypeField`). -/
def parseCareTypeField (value : JsonValue) : FieldParse String :=
  match value with
  | .null => .ok none
  | .str s =>
      let raw := s.trim.toUpper
      if raw = "" then .ok none
      else if raw ∈ ["EMERGENCY", "PSYCHIATRY", "OBGYN", "HAUSARZT", "MIDWIFE", "OTHER"] then
        .ok (some raw)
      else
        .err "care_type must be one of EMERGENCY, PSYCHIATRY, OBGYN, HAUSARZT, MIDWIFE, OTHER."
  | _ => .err "care_type must be one of EMERGENCY, PSYCHIATRY, OBGYN, HAUSARZT, MIDWIFE, OTHER."

/-- Nullable string field parser (`parseNullableStringField`): trims, and an
all-whitespace value clears the field. -/
def parseNullableStringField (value : JsonValue) (field : String) : FieldParse String :=
  match value with
  | .null => .ok none
  | .str s =>
      let trimmed := s.trim
      .ok (if 0 < trimmed.length then some trimmed else none)
  | _ => .err (field ++ " must be a string or null.")

/-- Patch normalization for outcome updates (`normalizeOutcomePatch`): the
five known keys are processed in source order and the first parse failure
aborts; the partially-built patch the source returns alongside an error is
never read by the caller, so an error result drops it. -/
def normalizeOutcomePatch (pf : String → Option ℚ) (outcome : OutcomeRaw) :
    Except String OutcomePatch :=
  (applySought {}).bind fun p =>
    (applyTime p).bind fun p =>
      (applyType p).bind fun p =>
        (applyResolved p).bind fun p =>
          applyNotes p
where
  applySought (p : OutcomePatch) : Except String OutcomePatch :=
    match outcome.care_sought with
    | none => .ok p
    | some v =>
        match parseNullableBooleanField v "care_sought" with
        | .ok value => .ok { p with care_sought := some value }
        | .err e => .error e
  applyTime (p : OutcomePatch) : Except String OutcomePatch :=
    match outcome.care_time with
    | none => .ok p
    | some v =>
        match parseNullableNumberField pf v "care_time" with
        | .ok value => .ok { p with care_time := some value }
        | .err e => .error e
  applyType (p : OutcomePatch) : Except String OutcomePatch :=
    match outcome.care_type with
    | none => .ok p
    | some v =>
        match parseCareTypeField v with
        | .ok value => .ok { p with care_type := some value }
        | .err e => .error e
  applyResolved (p : OutcomePatch) : Except String OutcomePatch :=
    match outcome.resolved with
    | none => .ok p
    | some v =>
        match parseNullableBooleanField v "resolved" with
        | .ok value => .ok { p with resolved := some value }
        | .err e => .error e
  applyNotes (p : OutcomePatch) : Except String OutcomePatch :=
    match outcome.notes with
    | none => .ok p
    | some v =>
        match parseNullableStringField v "notes" with
        | .ok value => .ok { p with notes := some value }
        | .err e => .error e

/-- Number of keys of a normalized outcome patch (`Object.keys(patch).length`:
a key set to an explicit clear still counts). -/
def outcomePatchKeyCount (p : OutcomePatch) : ℕ :=
  (if p.care_sought.isSome then 1 else 0)
  + (if p.care_time.isSome then 1 else 0)
  + (if p.care_type.isSome then 1 else 0)
  + (if p.resolved.isSome then 1 else 0)
  + (if p.notes.isSome then 1 else 0)

/-- The two JSONL logs the web handlers touch: the history log of audit
events and the append-only change log. -/
structure WebLogState where
  history : List AuditEvent
  changes : List ChangeEvent
deriving DecidableEq, Repr

/-- Transport-level outcome of a handler. -/
inductive WebResponse
  | badRequest (msg : String)
  | notFound (msg : String)
  | okEvent (event : AuditEvent)
deriving DecidableEq, Repr

/-- Modelled from the spec: the four-argument `updateAuditEventOutcome` the
web server calls (taking the editor and returning a before/after pair) is
not among the sources, which only hold an older three-argument revision.
Per section 4.2 it reads the record by id, reports NotFound when absent,
merges the patch with tri-state semantics, stamps updatedAt/updatedBy and the
parent record, writes back, and returns the before/after pair. -/
def updateAuditEventOutcome (history : List AuditEvent) (eventId : String)
    (patch : OutcomePatch) (editor now : String) :
    Option (List AuditEvent × UpdateResult) :=
  match history.find? (fun e => e.eventId == eventId) with
  | none => none
  | some before =>
      let after :=
        { before with
            outcome := some (applyOutcomePatch before.outcome patch editor now)
            last_updated_by := some editor
            last_updated_at := some now }
      some
        (history.map (fun e => if e.eventId == eventId then after else e),
          { before := before, after := after })

/-- Outcome-update web handler (`handleOutcomeUpdate` in server.ts), after
authentication has supplied the actor: a missing/blank eventId or a patch
that fails normalization or is empty is rejected with 400 before anything is
written; only a successful update appends a change event. -/
def handleOutcomeUpdate (pf : String → Option ℚ) (s : WebLogState)
    (eventIdRaw : Option String) (outcome : OutcomeRaw) (actor now changeId : String) :
    WebResponse × WebLogState :=
  let eventId := (eventIdRaw.getD "").trim
  if eventId.length = 0 then
    (.badRequest "eventId is required.", s)
  else
    match normalizeOutcomePatch pf outcome with
    | .error e => (.badRequest e, s)
    | .ok patch =>
        if outcomePatchKeyCount patch = 0 then
          (.badRequest "No valid outcome fields provided.", s)
        else
          match updateAuditEventOutcome s.history eventId patch actor now with
          | none => (.notFound "Audit event not found.", s)
          | some (history, updated) =>
              let change :=
                createAuditChangeEvent .OUTCOME_UPDATE actor (.outcome patch) updated
                  changeId now
              (.okEvent updated.after, { history := history, changes := s.changes ++ [change] })

/-! ## Shared lemmas -/

/-- Branch equation of the evaluator when some red flag fired. -/
lemma evaluate_of_fired {input : Input} {rules : Rules}
    (h : 0 < ((evaluateRedFlags input rules).filter fun flag => flag.fired).length) :
    evaluatePostpartumTriage input rules = emergencyResult input rules := by
  unfold evaluatePostpartumTriage
  exact if_pos h

/-- Branch equation of the evaluator when no red flag fired. -/
lemma evaluate_of_not_fired {input : Input} {rules : Rules}
    (h : ¬ 0 < ((evaluateRedFlags input rules).filter fun flag => flag.fired).length) :
    evaluatePostpartumTriage input rules = nonEmergencyResult input rules := by
  unfold evaluatePostpartumTriage
  exact if_neg h

/-- A nonnegative weight under a conditional guard stays nonnegative. -/
lemma nonneg_ite (c : Prop) [Decidable c] {w : ℚ} (h : 0 ≤ w) :
    0 ≤ if c then w else 0 := by
  split
  · exact h
  · exact le_refl 0

/-! ## Claim theorems for the decision engine -/

/-- C2: escalateOneLevel maps ROUTINE_FOLLOW_UP to URGENT_SAME_DAY,
URGENT_SAME_DAY to EMERGENCY_NOW and EMERGENCY_NOW to EMERGENCY_NOW; it never
decreases urgency, never goes past EMERGENCY_NOW, and applying it twice to
ROUTINE_FOLLOW_UP yields EMERGENCY_NOW. -/
theorem escalateOneLevel_monotone_capped :
    escalateOneLevel .ROUTINE_FOLLOW_UP = .URGENT_SAME_DAY
    ∧ escalateOneLevel .URGENT_SAME_DAY = .EMERGENCY_NOW
    ∧ escalateOneLevel .EMERGENCY_NOW = .EMERGENCY_NOW
    ∧ (∀ level, urgencyRank level ≤ urgencyRank (escalateOneLevel level))
    ∧ (∀ level, urgencyRank (escalateOneLevel level) ≤ urgencyRank .EMERGENCY_NOW)
    ∧ escalateOneLevel (escalateOneLevel .ROUTINE_FOLLOW_UP) = .EMERGENCY_NOW := by
  refine ⟨rfl, rfl, rfl, ?_, ?_, rfl⟩ <;> intro level <;> cases level <;> decide

/-- C6: for every input and rule set the returned score breakdown satisfies
total = mentalHealth + pelvicFloorAndRecovery + historyAndContext exactly. -/
theorem scoreBreakdown_total_conservation (input : Input) (rules : Rules) :
    (evaluatePostpartumTriage input rules).scoreBreakdown.total
      = (evaluatePostpartumTriage input rules).scoreBreakdown.mentalHealth
        + (evaluatePostpartumTriage input rules).scoreBreakdown.pelvicFloorAndRecovery
        + (evaluatePostpartumTriage input rules).scoreBreakdown.historyAndContext := by
  unfold evaluatePostpartumTriage
  split
  · norm_num [emergencyResult]
  · rfl

/-- C10: for every input and rule set the result satisfies
isEmergency = (level = EMERGENCY_NOW); uncertainty escalation to EMERGENCY_NOW
therefore sets isEmergency even with no fired red flag. -/
theorem isEmergency_iff_level_emergency (input : Input) (rules : Rules) :
    (evaluatePostpartumTriage input rules).isEmergency = true
      ↔ (evaluatePostpartumTriage input rules).level = .EMERGENCY_NOW := by
  unfold evaluatePostpartumTriage
  split
  · simp [emergencyResult]
  · simp [nonEmergencyResult]

/-- C1: whenever any red flag fires (in particular PP_RF001 on current
suicidal ideation with intent or plan), the evaluator returns EMERGENCY_NOW
with isEmergency, an all-zero score breakdown, and untriggered uncertainty,
regardless of every other field. -/
theorem red_flag_dominance (input : Input) (rules : Rules)
    (h : (evaluateRedFlags input rules).any (fun flag => flag.fired) = true) :
    (evaluatePostpartumTriage input rules).level = .EMERGENCY_NOW
    ∧ (evaluatePostpartumTriage input rules).isEmergency = true
    ∧ (evaluatePostpartumTriage input rules).scoreBreakdown.mentalHealth = 0
    ∧ (evaluatePostpartumTriage input rules).scoreBreakdown.pelvicFloorAndRecovery = 0
    ∧ (evaluatePostpartumTriage input rules).scoreBreakdown.historyAndContext = 0
    ∧ (evaluatePostpartumTriage input rules).scoreBreakdown.total = 0
    ∧ (evaluatePostpartumTriage input rules).uncertainty.triggered = false := by
  have hpos : 0 < ((evaluateRedFlags input rules).filter fun flag => flag.fired).length := by
    rcases List.any_eq_true.mp h with ⟨f, hf, hp⟩
    exact List.length_pos.mpr
      (List.ne_nil_of_mem (List.mem_filter.mpr ⟨hf, hp⟩))
  rw [evaluate_of_fired hpos]
  exact ⟨rfl, rfl, rfl, rfl, rfl, rfl, rfl⟩

/-- Sample rule set used by witnesses.  The concrete weights and threshold are
sample values: the production rule-set JSON is external data, not among the
sources; the red-flag rule ids follow the fired-predicate map of the
evaluator. -/
def sampleRules : Rules :=
  { version := "postpartum.de.v1"
    metadata := { emergencyNumber := "112" }
    redFlagRules :=
      [{ id := "PP_RF001", label := "Suicidal ideation with intent or plan", description := "" },
       { id := "PP_RF002", label := "Thoughts of harming the baby", description := "" },
       { id := "PP_RF003", label := "Psychosis warning signs", description := "" },
       { id := "PP_RF004", label := "Heavy bleeding emergency pattern", description := "" },
       { id := "PP_RF005", label := "High fever and severe pain", description := "" },
       { id := "PP_RF006", label := "Collapse or severe breathlessness", description := "" }]
    scoring :=
      { mentalHealth :=
          { depressedMoodMostDays := 3, anxietyOrPanicMostDays := 2
            sleepSeverelyDisruptedNotByBaby := 2, bondingDifficulty := 1
            anhedonia := 2, functionalImpairmentMental := 3, lateOnsetAfter6Weeks := 1 }
        pelvicFloorAndRecovery :=
          { urinaryIncontinenceFrequent := 2, fecalIncontinenceAny := 3
            urinaryRetention := 3, severePerinealPainPersistent := 2
            perinealWoundConcerns := 2, prolapseBulgeSymptoms := 2
            dyspareuniaPersistentSevere := 2, functionalImpairmentPelvic := 3 }
        historyAndContext :=
          { priorDepressionOrAnxiety := 1, priorPostpartumDepression := 2
            birthTraumaOrEmergencyDelivery := 1, oasisHistory := 2, poorSocialSupport := 1 } }
    thresholds := { urgentSameDayMin := 6 }
    confidencePolicy :=
      { criticalInputs :=
          ["suicidalIdeationNow", "thoughtsOfHarmingBaby", "heavyBleedingEmergencyPattern",
           "functionalImpairmentOverall"] } }

/-- Witness input for C1: both PP_RF001 fields answered yes, everything else
absent. -/
def suicidalInput : Input :=
  { suicidalIdeationNow := some true, suicidalIntentOrPlan := some true }

/-- Witness for C1 at a concrete input and rule set. -/
theorem red_flag_dominance_witness :
    (evaluateRedFlags suicidalInput sampleRules).any (fun flag => flag.fired) = true
    ∧ ((evaluatePostpartumTriage suicidalInput sampleRules).level = .EMERGENCY_NOW
      ∧ (evaluatePostpartumTriage suicidalInput sampleRules).isEmergency = true
      ∧ (evaluatePostpartumTriage suicidalInput sampleRules).scoreBreakdown.mentalHealth = 0
      ∧ (evaluatePostpartumTriage suicidalInput
          sampleRules).scoreBreakdown.pelvicFloorAndRecovery = 0
      ∧ (evaluatePostpartumTriage suicidalInput sampleRules).scoreBreakdown.historyAndContext = 0
      ∧ (evaluatePostpartumTriage suicidalInput sampleRules).scoreBreakdown.total = 0
      ∧ (evaluatePostpartumTriage suicidalInput sampleRules).uncertainty.triggered = false) :=
  ⟨by decide, red_flag_dominance suicidalInput sampleRules (by decide)⟩

/-- C5: with no fired red flag the base triage level is URGENT_SAME_DAY
exactly when the returned score total reaches the inclusive threshold, and
ROUTINE_FOLLOW_UP otherwise. -/
theorem baseLevel_threshold_inclusive (input : Input) (rules : Rules)
    (h : (evaluateRedFlags input rules).all (fun flag => !flag.fired) = true) :
    (baseLevelOf input rules = .URGENT_SAME_DAY
      ↔ rules.thresholds.urgentSameDayMin
          ≤ (evaluatePostpartumTriage input rules).scoreBreakdown.total)
    ∧ (baseLevelOf input rules = .ROUTINE_FOLLOW_UP
      ↔ ¬ rules.thresholds.urgentSameDayMin
          ≤ (evaluatePostpartumTriage input rules).scoreBreakdown.total) := by
  have hnil : ((evaluateRedFlags input rules).filter fun flag => flag.fired) = [] := by
    rw [List.filter_eq_nil_iff]
    intro a ha
    simpa using List.all_eq_true.mp h a ha
  have hnot : ¬ 0 < ((evaluateRedFlags input rules).filter fun flag => flag.fired).length := by
    rw [hnil]
    simp
  rw [evaluate_of_not_fired hnot]
  have hsb : (nonEmergencyResult input rules).scoreBreakdown = calculateScore input rules := rfl
  rw [hsb]
  unfold baseLevelOf
  by_cases hle : rules.thresholds.urgentSameDayMin ≤ (calculateScore input rules).total
  · rw [if_pos hle]
    exact ⟨by simp [hle], by simp [hle]⟩
  · rw [if_neg hle]
    exact ⟨by simp [hle], by simp [hle]⟩

/-- Witness input for C5: weighted symptoms summing exactly to the sample
threshold of 6 (mental 3 + 3), no red flag fields set. -/
def thresholdInput : Input :=
  { depressedMoodMostDays := some true, functionalImpairmentMental := some true }

/-- Witness for C5 at a concrete input summing exactly to the threshold. -/
theorem baseLevel_threshold_inclusive_witness :
    (evaluateRedFlags thresholdInput sampleRules).all (fun flag => !flag.fired) = true
    ∧ ((baseLevelOf thresholdInput sampleRules = .URGENT_SAME_DAY
      ↔ sampleRules.thresholds.urgentSameDayMin
          ≤ (evaluatePostpartumTriage thresholdInput sampleRules).scoreBreakdown.total)
    ∧ (baseLevelOf thresholdInput sampleRules = .ROUTINE_FOLLOW_UP
      ↔ ¬ sampleRules.thresholds.urgentSameDayMin
          ≤ (evaluatePostpartumTriage thresholdInput sampleRules).scoreBreakdown.total)) :=
  ⟨by decide, baseLevel_threshold_inclusive thresholdInput sampleRules (by decide)⟩

/-- C4: the confidence bucket follows first-match precedence — LOW on two or
more missing critical inputs, MAJOR inconsistency or explicit user uncertainty;
else MEDIUM on exactly one missing critical input or MINOR inconsistency; else
HIGH — and missingCriticalInputs counts the critical inputs of the rule set
absent from the input. -/
theorem confidence_bucket_precedence (input : Input) (rules : Rules) :
    ((buildConfidenceTrace input rules).bucket = .LOW
      ↔ (2 ≤ (buildConfidenceTrace input rules).missingCriticalInputs
          ∨ (buildConfidenceTrace input rules).inconsistencyLevel = .MAJOR
          ∨ (buildConfidenceTrace input rules).userUncertainOnSafetyQuestions = true))
    ∧ ((buildConfidenceTrace input rules).bucket = .MEDIUM
      ↔ (¬ (2 ≤ (buildConfidenceTrace input rules).missingCriticalInputs
            ∨ (buildConfidenceTrace input rules).inconsistencyLevel = .MAJOR
            ∨ (buildConfidenceTrace input rules).userUncertainOnSafetyQuestions = true)
          ∧ ((buildConfidenceTrace input rules).missingCriticalInputs = 1
            ∨ (buildConfidenceTrace input rules).inconsistencyLevel = .MINOR)))
    ∧ ((buildConfidenceTrace input rules).bucket = .HIGH
      ↔ (¬ (2 ≤ (buildConfidenceTrace input rules).missingCriticalInputs
            ∨ (buildConfidenceTrace input rules).inconsistencyLevel = .MAJOR
            ∨ (buildConfidenceTrace input rules).userUncertainOnSafetyQuestions = true)
          ∧ ¬ ((buildConfidenceTrace input rules).missingCriticalInputs = 1
            ∨ (buildConfidenceTrace input rules).inconsistencyLevel = .MINOR)))
    ∧ (buildConfidenceTrace input rules).missingCriticalInputs
        = (rules.confidencePolicy.criticalInputs.eraseDups).countP
            (fun key => !(isCriticalInputPresent key input)) := by
  have hb : (buildConfidenceTrace input rules).bucket
      = (if 2 ≤ (buildConfidenceTrace input rules).missingCriticalInputs
            ∨ (buildConfidenceTrace input rules).inconsistencyLevel = .MAJOR
            ∨ (buildConfidenceTrace input rules).userUncertainOnSafetyQuestions = true then
          ConfidenceBucket.LOW
        else if (buildConfidenceTrace input rules).missingCriticalInputs = 1
            ∨ (buildConfidenceTrace input rules).inconsistencyLevel = .MINOR then
          ConfidenceBucket.MEDIUM
        else
          ConfidenceBucket.HIGH) := rfl
  have hm : (buildConfidenceTrace input rules).missingCriticalInputs
      = ((rules.confidencePolicy.criticalInputs.eraseDups).map fun key =>
          (key, isCriticalInputPresent key input)).countP (fun kv => !kv.2) := rfl
  refine ⟨?_, ?_, ?_, ?_⟩
  · rw [hb]
    by_cases h1 : 2 ≤ (buildConfidenceTrace input rules).missingCriticalInputs
        ∨ (buildConfidenceTrace input rules).inconsistencyLevel = .MAJOR
        ∨ (buildConfidenceTrace input rules).userUncertainOnSafetyQuestions = true
    · simp [h1]
    · by_cases h2 : (buildConfidenceTrace input rules).missingCriticalInputs = 1
          ∨ (buildConfidenceTrace input rules).inconsistencyLevel = .MINOR
      · simp [h1, h2]
      · simp [h1, h2]
  · rw [hb]
    by_cases h1 : 2 ≤ (buildConfidenceTrace input rules).missingCriticalInputs
        ∨ (buildConfidenceTrace input rules).inconsistencyLevel = .MAJOR
        ∨ (buildConfidenceTrace input rules).userUncertainOnSafetyQuestions = true
    · simp [h1]
    · by_cases h2 : (buildConfidenceTrace input rules).missingCriticalInputs = 1
          ∨ (buildConfidenceTrace input rules).inconsistencyLevel = .MINOR
      · simp [h1, h2]
      · simp [h1, h2]
  · rw [hb]
    by_cases h1 : 2 ≤ (buildConfidenceTrace input rules).missingCriticalInputs
        ∨ (buildConfidenceTrace input rules).inconsistencyLevel = .MAJOR
        ∨ (buildConfidenceTrace input rules).userUncertainOnSafetyQuestions = true
    · simp [h1]
    · by_cases h2 : (buildConfidenceTrace input rules).missingCriticalInputs = 1
          ∨ (buildConfidenceTrace input rules).inconsistencyLevel = .MINOR
      · simp [h1, h2]
      · simp [h1, h2]
  · rw [hm, List.countP_map]
    rfl

/-- Nonnegativity of every per-item weight of a rule set: the amendment the
negative-weight counterexample forces on C7. -/
def nonnegativeScoring (rules : Rules) : Prop :=
  0 ≤ rules.scoring.mentalHealth.depressedMoodMostDays
  ∧ 0 ≤ rules.scoring.mentalHealth.anxietyOrPanicMostDays
  ∧ 0 ≤ rules.scoring.mentalHealth.sleepSeverelyDisruptedNotByBaby
  ∧ 0 ≤ rules.scoring.mentalHealth.bondingDifficulty
  ∧ 0 ≤ rules.scoring.mentalHealth.anhedonia
  ∧ 0 ≤ rules.scoring.mentalHealth.functionalImpairmentMental
  ∧ 0 ≤ rules.scoring.mentalHealth.lateOnsetAfter6Weeks
  ∧ 0 ≤ rules.scoring.pelvicFloorAndRecovery.urinaryIncontinenceFrequent
  ∧ 0 ≤ rules.scoring.pelvicFloorAndRecovery.fecalIncontinenceAny
  ∧ 0 ≤ rules.scoring.pelvicFloorAndRecovery.urinaryRetention
  ∧ 0 ≤ rules.scoring.pelvicFloorAndRecovery.severePerinealPainPersistent
  ∧ 0 ≤ rules.scoring.pelvicFloorAndRecovery.perinealWoundConcerns
  ∧ 0 ≤ rules.scoring.pelvicFloorAndRecovery.prolapseBulgeSymptoms
  ∧ 0 ≤ rules.scoring.pelvicFloorAndRecovery.dyspareuniaPersistentSevere
  ∧ 0 ≤ rules.scoring.pelvicFloorAndRecovery.functionalImpairmentPelvic
  ∧ 0 ≤ rules.scoring.historyAndContext.priorDepressionOrAnxiety
  ∧ 0 ≤ rules.scoring.historyAndContext.priorPostpartumDepression
  ∧ 0 ≤ rules.scoring.historyAndContext.birthTraumaOrEmergencyDelivery
  ∧ 0 ≤ rules.scoring.historyAndContext.oasisHistory
  ∧ 0 ≤ rules.scoring.historyAndContext.poorSocialSupport

/-- Rule set with one negative mental-health weight and no red-flag rules,
exercising the unguarded weight arithmetic of `calculateScore`. -/
def negativeWeightRules : Rules :=
  { version := "test.negative"
    metadata := { emergencyNumber := "112" }
    redFlagRules := []
    scoring :=
      { mentalHealth :=
          { depressedMoodMostDays := -1, anxietyOrPanicMostDays := 0
            sleepSeverelyDisruptedNotByBaby := 0, bondingDifficulty := 0
            anhedonia := 0, functionalImpairmentMental := 0, lateOnsetAfter6Weeks := 0 }
        pelvicFloorAndRecovery :=
          { urinaryIncontinenceFrequent := 0, fecalIncontinenceAny := 0
            urinaryRetention := 0, severePerinealPainPersistent := 0
            perinealWoundConcerns := 0, prolapseBulgeSymptoms := 0
            dyspareuniaPersistentSevere := 0, functionalImpairmentPelvic := 0 }
        historyAndContext :=
          { priorDepressionOrAnxiety := 0, priorPostpartumDepression := 0
            birthTraumaOrEmergencyDelivery := 0, oasisHistory := 0, poorSocialSupport := 0 } }
    thresholds := { urgentSameDayMin := 6 }
    confidencePolicy := { criticalInputs := [] } }

/-- Witness input for the C7 counterexample: only the negatively-weighted
symptom is answered yes. -/
def depressedOnlyInput : Input :=
  { depressedMoodMostDays := some true }

/-- Counterexample to C7 as stated: a rule set is arbitrary JSON and nothing
in `calculateScore` guards against negative weights, so with a weight of -1
on a reported symptom the mental-health component of the returned breakdown
is negative. -/
theorem score_component_negative_counterexample :
    (evaluatePostpartumTriage depressedOnlyInput
        negativeWeightRules).scoreBreakdown.mentalHealth < 0 := by
  have h : (evaluatePostpartumTriage depressedOnlyInput
      negativeWeightRules).scoreBreakdown.mentalHealth
      = (-1 : ℚ) + 0 + 0 + 0 + 0 + 0 + 0 := rfl
  rw [h]
  norm_num

/-- Mental-health component of the score is nonnegative under nonnegative
weights. -/
lemma calculateScore_mentalHealth_nonneg (input : Input) (rules : Rules)
    (h : nonnegativeScoring rules) : 0 ≤ (calculateScore input rules).mentalHealth := by
  obtain ⟨h1, h2, h3, h4, h5, h6, h7, h8, h9, h10, h11, h12, h13, h14, h15, h16, h17, h18,
    h19, h20⟩ := h
  simp only [calculateScore]
  repeat' apply add_nonneg
  all_goals exact nonneg_ite _ (by assumption)

/-- Pelvic-floor component of the score is nonnegative under nonnegative
weights. -/
lemma calculateScore_pelvic_nonneg (input : Input) (rules : Rules)
    (h : nonnegativeScoring rules) : 0 ≤ (calculateScore input rules).pelvicFloorAndRecovery := by
  obtain ⟨h1, h2, h3, h4, h5, h6, h7, h8, h9, h10, h11, h12, h13, h14, h15, h16, h17, h18,
    h19, h20⟩ := h
  simp only [calculateScore]
  repeat' apply add_nonneg
  all_goals exact nonneg_ite _ (by assumption)

/-- History/context component of the score is nonnegative under nonnegative
weights. -/
lemma calculateScore_history_nonneg (input : Input) (rules : Rules)
    (h : nonnegativeScoring rules) : 0 ≤ (calculateScore input rules).historyAndContext := by
  obtain ⟨h1, h2, h3, h4, h5, h6, h7, h8, h9, h10, h11, h12, h13, h14, h15, h16, h17, h18,
    h19, h20⟩ := h
  simp only [calculateScore]
  repeat' apply add_nonneg
  all_goals exact nonneg_ite _ (by assumption)

/-- C7 amended: for every input, and every rule set whose scoring weights are
all nonnegative, each component of the returned score breakdown and its total
are nonnegative. -/
theorem score_components_nonneg (input : Input) (rules : Rules)
    (h : nonnegativeScoring rules) :
    0 ≤ (evaluatePostpartumTriage input rules).scoreBreakdown.mentalHealth
    ∧ 0 ≤ (evaluatePostpartumTriage input rules).scoreBreakdown.pelvicFloorAndRecovery
    ∧ 0 ≤ (evaluatePostpartumTriage input rules).scoreBreakdown.historyAndContext
    ∧ 0 ≤ (evaluatePostpartumTriage input rules).scoreBreakdown.total := by
  unfold evaluatePostpartumTriage
  split
  · exact ⟨le_refl 0, le_refl 0, le_refl 0, le_refl 0⟩
  · have hsb : (nonEmergencyResult input rules).scoreBreakdown = calculateScore input rules := rfl
    rw [hsb]
    have hm := calculateScore_mentalHealth_nonneg input rules h
    have hp := calculateScore_pelvic_nonneg input rules h
    have hh := calculateScore_history_nonneg input rules h
    have ht : (calculateScore input rules).total
        = (calculateScore input rules).mentalHealth
          + (calculateScore input rules).pelvicFloorAndRecovery
          + (calculateScore input rules).historyAndContext := rfl
    exact ⟨hm, hp, hh, by rw [ht]; exact add_nonneg (add_nonneg hm hp) hh⟩

/-- Witness for the amended C7 at the sample rule set. -/
theorem score_components_nonneg_witness :
    nonnegativeScoring sampleRules
    ∧ (0 ≤ (evaluatePostpartumTriage depressedOnlyInput sampleRules).scoreBreakdown.mentalHealth
      ∧ 0 ≤ (evaluatePostpartumTriage depressedOnlyInput
          sampleRules).scoreBreakdown.pelvicFloorAndRecovery
      ∧ 0 ≤ (evaluatePostpartumTriage depressedOnlyInput
          sampleRules).scoreBreakdown.historyAndContext
      ∧ 0 ≤ (evaluatePostpartumTriage depressedOnlyInput sampleRules).scoreBreakdown.total) :=
  ⟨by norm_num [nonnegativeScoring, sampleRules],
    score_components_nonneg depressedOnlyInput sampleRules
      (by norm_num [nonnegativeScoring, sampleRules])⟩

/-! ## Claim theorems for the case record store -/

/-- Aborting on an absent caseId leaves the whole state untouched. -/
lemma updateEventWithChange_absent {s : StoreState} {eventId : String} {ct : ChangeType}
    {editor : String} {patch : ChangePatch} {apply : AuditEvent → String → AuditEvent}
    {now changeId : String}
    (h : s.cases.find? (fun row => row.event_id == eventId) = none) :
    updateEventWithChange s eventId ct editor patch apply now changeId = (none, s) := by
  unfold updateEventWithChange
  rw [h]

/-- A change event is appended exactly when the shared patch protocol
succeeds. -/
lemma updateEventWithChange_change_iff (s : StoreState) (eventId : String) (ct : ChangeType)
    (editor : String) (patch : ChangePatch) (apply : AuditEvent → String → AuditEvent)
    (now changeId : String) :
    (∃ c, (updateEventWithChange s eventId ct editor patch apply now changeId).2.changes
        = s.changes ++ [c])
      ↔ (updateEventWithChange s eventId ct editor patch apply now changeId).1.isSome = true := by
  unfold updateEventWithChange
  cases h : s.cases.find? (fun row => row.event_id == eventId) with
  | none =>
      constructor
      · rintro ⟨c, hc⟩
        have hlen := congrArg List.length hc
        simp at hlen
      · intro hsome
        simp at hsome
  | some row =>
      constructor
      · intro _
        rfl
      · intro _
        exact ⟨_, rfl⟩

/-- C3: patching the outcome or the workflow of a caseId absent from the case
table returns NotFound with no effect on the cases table or the ledger, and a
ChangeEvent is appended exactly when the patch operation succeeds with a
before/after pair. -/
theorem patch_missing_case_no_effect (s : StoreState) (eventId : String)
    (outcomePatch : OutcomePatch) (workflowPatch : WorkflowPatch)
    (editor now changeId : String) :
    (s.cases.find? (fun row => row.event_id == eventId) = none →
        updateOutcome s eventId outcomePatch editor now changeId = (none, s)
        ∧ updateWorkflow s eventId workflowPatch editor now changeId = (none, s))
    ∧ ((∃ c, (updateOutcome s eventId outcomePatch editor now changeId).2.changes
          = s.changes ++ [c])
        ↔ (updateOutcome s eventId outcomePatch editor now changeId).1.isSome = true)
    ∧ ((∃ c, (updateWorkflow s eventId workflowPatch editor now changeId).2.changes
          = s.changes ++ [c])
        ↔ (updateWorkflow s eventId workflowPatch editor now changeId).1.isSome = true) := by
  refine ⟨fun h => ⟨updateEventWithChange_absent h, updateEventWithChange_absent h⟩, ?_, ?_⟩
  · exact updateEventWithChange_change_iff s eventId _ editor _ _ now changeId
  · exact updateEventWithChange_change_iff s eventId _ editor _ _ now changeId

/-- Empty store used by the C3 witness. -/
def emptyStore : StoreState :=
  { cases := [], changes := [] }

/-- Witness for C3: patching a caseId in an empty store reports NotFound and
changes nothing. -/
theorem patch_missing_case_no_effect_witness :
    updateOutcome emptyStore "missing-case" {} "coordinator" "2026-01-01T00:00:00Z" "chg-1"
      = (none, emptyStore)
    ∧ updateWorkflow emptyStore "missing-case" {} "coordinator" "2026-01-01T00:00:00Z" "chg-1"
      = (none, emptyStore) :=
  (patch_missing_case_no_effect emptyStore "missing-case" {} {} "coordinator"
      "2026-01-01T00:00:00Z" "chg-1").1 rfl

/-- Conflict-ignored insertion never shrinks the cases table. -/
lemma importCases_length_le (events : List AuditEvent) :
    ∀ rows : List CaseRow, rows.length ≤ (importCases rows events).2.length := by
  induction events with
  | nil =>
      intro rows
      simp [importCases]
  | cons e rest ih =>
      intro rows
      simp only [importCases]
      refine le_trans ?_ (ih (insertCaseOrIgnore rows (caseRowOf e)).2)
      unfold insertCaseOrIgnore
      split
      · exact le_refl _
      · simp

/-- Conflict-ignored insertion never shrinks the changes table. -/
lemma importChanges_length_le (changeEvents : List ChangeEvent) :
    ∀ rows : List ChangeEvent, rows.length ≤ (importChanges rows changeEvents).2.length := by
  induction changeEvents with
  | nil =>
      intro rows
      simp [importChanges]
  | cons c rest ih =>
      intro rows
      simp only [importChanges]
      refine le_trans ?_ (ih (insertChangeOrIgnore rows c).2)
      unfold insertChangeOrIgnore
      split
      · exact le_refl _
      · simp

/-- Running the cases-import block twice imports nothing the second time. -/
lemma importCasesIfEmpty_idem (cases : List CaseRow) (historySource : Option (List AuditEvent)) :
    importCasesIfEmpty (importCasesIfEmpty cases historySource).2 historySource
      = (0, (importCasesIfEmpty cases historySource).2) := by
  by_cases h : 0 < cases.length
  · simp [importCasesIfEmpty, h]
  · have hnil : cases = [] := List.eq_nil_of_length_eq_zero (Nat.eq_zero_of_not_pos h)
    subst hnil
    cases historySource with
    | none => simp [importCasesIfEmpty]
    | some events =>
        cases events with
        | nil => simp [importCasesIfEmpty, importCases]
        | cons e rest =>
            have h1 : insertCaseOrIgnore [] (caseRowOf (normalizeEvent e))
                = (true, [caseRowOf (normalizeEvent e)]) := by
              simp [insertCaseOrIgnore]
            have hpos : 0 < (importCases []
                (normalizeEvent e :: List.map normalizeEvent rest)).2.length := by
              simp only [importCases, h1]
              exact lt_of_lt_of_le (by simp)
                (importCases_length_le (List.map normalizeEvent rest)
                  [caseRowOf (normalizeEvent e)])
            have hfirst : importCasesIfEmpty [] (some (e :: rest))
                = importCases [] (normalizeEvent e :: List.map normalizeEvent rest) := by
              simp [importCasesIfEmpty]
            rw [hfirst]
            unfold importCasesIfEmpty
            rw [if_pos hpos]

/-- Running the changes-import block twice imports nothing the second time. -/
lemma importChangesIfEmpty_idem (changes : List ChangeEvent)
    (changeSource : Option (List ChangeEvent)) :
    importChangesIfEmpty (importChangesIfEmpty changes changeSource).2 changeSource
      = (0, (importChangesIfEmpty changes changeSource).2) := by
  by_cases h : 0 < changes.length
  · simp [importChangesIfEmpty, h]
  · have hnil : changes = [] := List.eq_nil_of_length_eq_zero (Nat.eq_zero_of_not_pos h)
    subst hnil
    cases changeSource with
    | none => simp [importChangesIfEmpty]
    | some changeEvents =>
        cases changeEvents with
        | nil => simp [importChangesIfEmpty, importChanges]
        | cons c rest =>
            have h1 : insertChangeOrIgnore [] c = (true, [c]) := by
              simp [insertChangeOrIgnore]
            have hpos : 0 < (importChanges [] (c :: rest)).2.length := by
              simp only [importChanges, h1]
              exact lt_of_lt_of_le (by simp) (importChanges_length_le rest [c])
            have hfirst : importChangesIfEmpty [] (some (c :: rest))
                = importChanges [] (c :: rest) := by
              simp [importChangesIfEmpty]
            rw [hfirst]
            unfold importChangesIfEmpty
            rw [if_pos hpos]

/-- C9: the legacy import runs only against empty tables — calling it twice in
sequence imports rows only on the first call; the second call reports zero
imported cases and zero imported changes and leaves the state unchanged. -/
theorem import_runs_only_once (s : StoreState) (historySource : Option (List AuditEvent))
    (changeSource : Option (List ChangeEvent)) :
    migrateFromJsonl (migrateFromJsonl s historySource changeSource).2 historySource
        changeSource
      = ((0, 0), (migrateFromJsonl s historySource changeSource).2) := by
  have hc := importCasesIfEmpty_idem s.cases historySource
  have hg := importChangesIfEmpty_idem s.changes changeSource
  simp only [migrateFromJsonl]
  simp [hc, hg]

/-! ## Claim theorems for the web validation layer -/

/-- A present negative numeric care_time makes the care_time parse step fail
regardless of the partially-built patch. -/
lemma applyTime_error_of_negative (pf : String → Option ℚ) (outcome : OutcomeRaw) {q : ℚ}
    (ht : outcome.care_time = some (.num q)) (hq : q < 0) (p : OutcomePatch) :
    normalizeOutcomePatch.applyTime pf outcome p
      = .error ("care_time" ++ " must be a non-negative number or null.") := by
  have hp : parseNullableNumberField pf (.num q) "care_time"
      = .err ("care_time" ++ " must be a non-negative number or null.") := by
    simp only [parseNullableNumberField]
    rw [if_neg hq.not_le]
  simp only [normalizeOutcomePatch.applyTime, ht, hp]

/-- A present negative numeric care_time makes the whole patch normalization
fail with some error. -/
lemma normalizeOutcomePatch_error_of_negative_time (pf : String → Option ℚ)
    (outcome : OutcomeRaw) {q : ℚ} (ht : outcome.care_time = some (.num q)) (hq : q < 0) :
    ∃ e, normalizeOutcomePatch pf outcome = .error e := by
  unfold normalizeOutcomePatch
  cases hs : normalizeOutcomePatch.applySought outcome {} with
  | error e =>
      exact ⟨e, rfl⟩
  | ok p =>
      refine ⟨"care_time" ++ " must be a non-negative number or null.", ?_⟩
      show (normalizeOutcomePatch.applyTime pf outcome p).bind _ = _
      rw [applyTime_error_of_negative pf outcome ht hq p]
      rfl

/-- C8: an outcome patch carrying a negative numeric care_time is rejected
with a 400 validation error before any store write and produces no
ChangeEvent; a patch whose normalized field set is empty is likewise rejected
before anything is written. -/
theorem outcome_patch_validation_rejected (pf : String → Option ℚ) (s : WebLogState)
    (eventIdRaw : Option String) (outcome : OutcomeRaw) (actor now changeId : String)
    (q : ℚ) :
    (outcome.care_time = some (.num q) → q < 0 →
      ∃ e, handleOutcomeUpdate pf s eventIdRaw outcome actor now changeId
        = (.badRequest e, s))
    ∧ (∀ patch, normalizeOutcomePatch pf outcome = .ok patch →
      outcomePatchKeyCount patch = 0 →
      ∃ e, handleOutcomeUpdate pf s eventIdRaw outcome actor now changeId
        = (.badRequest e, s)) := by
  by_cases he : ((eventIdRaw.getD "").trim).length = 0
  · constructor
    · intro _ _
      exact ⟨"eventId is required.", by simp only [handleOutcomeUpdate]; rw [if_pos he]⟩
    · intro _ _ _
      exact ⟨"eventId is required.", by simp only [handleOutcomeUpdate]; rw [if_pos he]⟩
  · constructor
    · intro ht hq
      obtain ⟨e, hn⟩ := normalizeOutcomePatch_error_of_negative_time pf outcome ht hq
      refine ⟨e, ?_⟩
      simp only [handleOutcomeUpdate]
      rw [if_neg he, hn]
    · intro patch hok hcount
      refine ⟨"No valid outcome fields provided.", ?_⟩
      simp only [handleOutcomeUpdate]
      rw [if_neg he, hok]
      show (if outcomePatchKeyCount patch = 0 then _ else _) = _
      rw [if_pos hcount]

/-- Uninterpreted parseFloat model used by witnesses. -/
def pfNone : String → Option ℚ := fun _ => none

/-- Empty web logs used by the C8 witness. -/
def emptyWebLogs : WebLogState :=
  { history := [], changes := [] }

/-- The witness payload of C8: `{outcome: {care_time: -1}}`. -/
def negativeCareTimeOutcome : OutcomeRaw :=
  { care_time := some (.num (-1)) }

/-- Witness for C8 at the concrete payloads. -/
theorem outcome_patch_validation_rejected_witness :
    (negativeCareTimeOutcome.care_time = some (.num (-1)) ∧ (-1 : ℚ) < 0
      ∧ ∃ e, handleOutcomeUpdate pfNone emptyWebLogs (some "evt-1") negativeCareTimeOutcome
          "coordinator" "2026-01-01T00:00:00Z" "chg-1" = (.badRequest e, emptyWebLogs))
    ∧ (normalizeOutcomePatch pfNone {} = .ok {} ∧ outcomePatchKeyCount {} = 0
      ∧ ∃ e, handleOutcomeUpdate pfNone emptyWebLogs (some "evt-1") ({} : OutcomeRaw)
          "coordinator" "2026-01-01T00:00:00Z" "chg-1" = (.badRequest e, emptyWebLogs)) := by
  have h1 := (outcome_patch_validation_rejected pfNone emptyWebLogs (some "evt-1")
    negativeCareTimeOutcome "coordinator" "2026-01-01T00:00:00Z" "chg-1" (-1)).1 rfl
    (by norm_num)
  have h2 := (outcome_patch_validation_rejected pfNone emptyWebLogs (some "evt-1")
    ({} : OutcomeRaw) "coordinator" "2026-01-01T00:00:00Z" "chg-1" (-1)).2 {} rfl rfl
  exact ⟨⟨rfl, by norm_num, h1⟩, ⟨rfl, rfl, h2⟩⟩

end Postpartum
